import Mathlib

/-!
# Spectra bot — Timed Entity Lifecycle Engine, shallow embedding

A shallow embedding of the lifecycle / persistence core of `src/app.py`
(the Discord bot "Spectra"): the in-memory registries (`ACTIVE_GIVEWAYS`,
`CONFIG_DB`, `LICENSE_DB`), the giveaway start/end commands, the license
bind / delete / status operations, the periodic `check_licenses` sweep,
and the JSON persistence round-trip of `save_data` / `load_data`.

Python dicts are modelled as association lists with distinct keys
(insertion preserves order, assignment overwrites, `pop`/`del` removes).
Timestamps (`time.time()`, `expiry_timestamp`) are modelled as `Int`.
External effects (owner DMs, channel announcements, message edits, and
`save_data` calls) are recorded as an explicit event trace so that
ordering claims can be stated.
-/

namespace Spectra

/-- External side effects performed by the bot, in program order.
`persist*` events are `save_data(...)` calls; `notifyOwner` is a
`guild.owner.send(...)` attempt; `sendAnnouncement`/`editMessage` are the
giveaway-channel announcement and the edit of the original giveaway
message. -/
inductive Event where
  | notifyOwner (guild : Nat)
  | persistConfig
  | persistLicenses
  | persistGiveaways
  | sendAnnouncement (channel : Nat)
  | editMessage (message : Nat)
  deriving DecidableEq, Repr

/-! ## Python dict model -/

/-- `d[k] = v` on a Python dict: overwrite in place if the key is present,
else append. -/
def dictInsert {α : Type} (k : Nat) (v : α) (d : List (Nat × α)) :
    List (Nat × α) :=
  if d.any (fun p => p.1 = k) then
    d.map (fun p => if p.1 = k then (k, v) else p)
  else
    d ++ [(k, v)]

/-- `d.pop(k)` / `del d[k]` on a Python dict. -/
def dictPop {α : Type} (k : Nat) (d : List (Nat × α)) : List (Nat × α) :=
  d.filter (fun p => p.1 ≠ k)

/-- `del d[k]` on a string-keyed Python dict. -/
def sdictPop {α : Type} (k : String) (d : List (String × α)) :
    List (String × α) :=
  d.filter (fun p => p.1 ≠ k)

/-! ## Giveaways (`GiveawayCog`)

`ACTIVE_GIVEWAYS[giveaway_id]` holds the dict written by
`start_giveaway_command` (`src/app.py:453-460`). -/

/-- One `ACTIVE_GIVEWAYS` record. -/
structure Giveaway where
  prize : String
  start_time : Int
  end_time : Int
  channel_id : Nat
  host_id : Nat
  message_id : Nat
  deriving DecidableEq, Repr

/-- The giveaway registry `ACTIVE_GIVEWAYS` (int keys). -/
abbrev GiveawayDB := List (Nat × Giveaway)

/-- `start_giveaway_command` (`src/app.py:417-466`), state part: the id is
`len(ACTIVE_GIVEWAYS) + 1`, `end_time = time.time() + duration * 60`, and
the record is stored under that id (overwriting any existing entry, as
Python dict assignment does). Returns the new registry and the id used. -/
def start_giveaway (now : Int) (prize : String) (duration : Int)
    (host_id channel_id message_id : Nat) (d : GiveawayDB) :
    GiveawayDB × Nat :=
  let giveaway_id := d.length + 1
  let g : Giveaway :=
    { prize := prize
      start_time := now
      end_time := now + duration * 60
      channel_id := channel_id
      host_id := host_id
      message_id := message_id }
  (dictInsert giveaway_id g d, giveaway_id)

/-- Outcome reported by `end_giveaway_command`. -/
inductive EndOutcome where
  | notActive
  | messageLost
  | winnerAnnounced (winner : Nat)
  | noEntrants
  deriving DecidableEq, Repr

/-- `random.choice(participants)`: one element of a non-empty list,
parameterised by the random draw `r` (uniform when `r` is uniform over
`0 .. participants.length - 1`). -/
def pick_winner (participants : List Nat) (r : Nat) : Option Nat :=
  if participants.isEmpty then none
  else some (participants.getD (r % participants.length) 0)

/-- `end_giveaway_command` (`src/app.py:469-533`).

Inputs beyond the registry: `fetch_ok` models whether the original channel
and message could be fetched; `reactors` is the list of users on the 🎉
reaction as `(user_id, bot?)` pairs (participants are the non-bot ones);
`r` is the random draw used by `random.choice`.

Order of operations, as in the source: membership check, `pop` +
`save_data('giveaways')`, fetch (on failure the entity stays removed),
participant collection, winner draw, channel announcement, message edit. -/
def end_giveaway (fetch_ok : Bool) (reactors : List (Nat × Bool)) (r : Nat)
    (d : GiveawayDB) (giveaway_id : Nat) :
    GiveawayDB × EndOutcome × List Event :=
  match d.lookup giveaway_id with
  | none => (d, .notActive, [])
  | some g =>
    let d' := dictPop giveaway_id d
    if fetch_ok then
      let participants := (reactors.filter (fun u => !u.2)).map Prod.fst
      match pick_winner participants r with
      | some w =>
        (d', .winnerAnnounced w,
          [.persistGiveaways, .sendAnnouncement g.channel_id,
           .editMessage g.message_id])
      | none =>
        (d', .noEntrants,
          [.persistGiveaways, .sendAnnouncement g.channel_id,
           .editMessage g.message_id])
    else
      (d', .messageLost, [.persistGiveaways])

/-! ## Licenses and premium config (`LicenseCog`, `is_guild_premium`)

`LICENSE_DB[key]` is the dict written by `license_generate_command`
(`src/app.py:919-927`); `CONFIG_DB[guild_id]['premium']` is written by
`license_guild_command` (`src/app.py:1077-1083`). -/

/-- The `expiry_timestamp` field of a license: the string `"N/A"` for a
lifetime key, or an integer Unix timestamp. -/
inductive ExpiryTs where
  | na
  | ts (t : Int)
  deriving DecidableEq, Repr

/-- One `LICENSE_DB` record. `expires_at` is the human-readable field
(`"LIFETIME"` or a formatted date string). -/
structure License where
  created_by : Nat
  expires_at : String
  expiry_timestamp : ExpiryTs
  reason : String
  is_used : Bool
  guild_id : Option Nat
  deriving DecidableEq, Repr

/-- The `expires_at` field stored in `CONFIG_DB[guild]['premium']`: the
string `"LIFETIME"`, the string `"N/A"` (what `license_guild_command`
actually stores for a lifetime key, since it copies `expiry_timestamp`),
or an integer timestamp. Python's `int(x)` succeeds only in the `ts`
case; on the two string sentinels it raises. -/
inductive PremiumExpiry where
  | lifetime
  | na
  | ts (t : Int)
  deriving DecidableEq, Repr

/-- The `CONFIG_DB[guild]['premium']` sub-dict. `inactivated_at` and
`removal_reason` are absent (`none`) until a deactivation writes them. -/
structure Premium where
  active : Bool
  license_key : String
  activated_by : Nat
  activated_at : Int
  expires_at : PremiumExpiry
  inactivated_at : Option Int
  removal_reason : Option String
  deriving DecidableEq, Repr

/-- One `CONFIG_DB` record (per guild). -/
structure GuildConfig where
  giveaway_channel_id : Option Nat
  premium : Option Premium
  deriving DecidableEq, Repr

/-- `CONFIG_DB` (int guild-id keys). -/
abbrev ConfigDB := List (Nat × GuildConfig)

/-- `LICENSE_DB` (string keys). -/
abbrev LicenseDB := List (String × License)

/-- `is_guild_premium` (`src/app.py:169-191`). Returns the pair the
source returns: `(False, None)` when there is no premium dict or
`active` is falsy; `(True, "LIFETIME")` on the lifetime sentinel;
otherwise it tries `int(expires_at)` — success compares against `now`
(`(True, ts)` if strictly in the future, `(False, ts)` if not), failure
(the `"N/A"` sentinel) yields `(False, None)`. -/
def is_guild_premium (now : Int) (cfg : ConfigDB) (guild_id : Nat) :
    Bool × Option PremiumExpiry :=
  match (cfg.lookup guild_id).bind (fun c => c.premium) with
  | none => (false, none)
  | some p =>
    if ¬ p.active then (false, none)
    else
      match p.expires_at with
      | .lifetime => (true, some .lifetime)
      | .ts t => if t > now then (true, some (.ts t)) else (false, some (.ts t))
      | .na => (false, none)

/-- The condition under which `check_licenses` (`src/app.py:827-837`)
collects a guild as expired: `premium.active` truthy, `expires_at` is not
the `"LIFETIME"` sentinel, `int(expires_at)` succeeds (so not `"N/A"`),
and `current_time >= expires_ts`. -/
def premium_expired_now (now : Int) (c : GuildConfig) : Bool :=
  match c.premium with
  | none => false
  | some p =>
    p.active && (match p.expires_at with
      | .ts t => decide (now ≥ t)
      | _ => false)

/-- The list `expired_guild_ids` built by `check_licenses`. -/
def expiredGuildIds (now : Int) (cfg : ConfigDB) : List Nat :=
  (cfg.filter (fun p => premium_expired_now now p.2)).map Prod.fst

/-- The in-place mutation `check_licenses` performs on an expired guild's
premium dict: `active = False`, `inactivated_at = int(current_time)`,
`removal_reason = "Expired automatically."`. -/
def deactivateExpired (now : Int) (c : GuildConfig) : GuildConfig :=
  { c with premium := c.premium.map (fun p =>
      { p with active := false
               inactivated_at := some now
               removal_reason := some "Expired automatically." }) }

/-- The body of the `check_licenses` background task
(`src/app.py:821-860`), acting on `CONFIG_DB`. Phase 1 collects
`expired_guild_ids`; if the list is empty the tick is a no-op. Phase 2
mutates each collected guild's premium dict and attempts an owner DM per
guild; `save_data('config')` runs once, after the whole loop. -/
def check_licenses (now : Int) (cfg : ConfigDB) : ConfigDB × List Event :=
  let expired := expiredGuildIds now cfg
  if expired.isEmpty then (cfg, [])
  else
    let cfg' := cfg.map (fun p =>
      if p.1 ∈ expired then (p.1, deactivateExpired now p.2) else p)
    (cfg', expired.map .notifyOwner ++ [.persistConfig])

/-- Result reported by `license_guild_command`. -/
inductive BindResult where
  | invalidKey
  | alreadyPremium (expires : Option PremiumExpiry)
  | keyExpired
  | usedElsewhere (other : Option Nat)
  | success
  deriving DecidableEq, Repr

/-- `license_guild_command` (`src/app.py:1040-1099`): validation in source
order — key exists; `is_guild_premium` not already true; key unexpired
(`expiry_timestamp != "N/A" and int(expiry_timestamp) <= time.time()`
rejects); key unused or already bound to this guild. On success the
license is marked used and bound (`save_data('licenses')`) and the
guild's `premium` dict is replaced wholesale, with `expires_at` copied
from the key's `expiry_timestamp` (`save_data('config')`). -/
def license_guild (now : Int) (key : String) (guild_id actor : Nat)
    (lic : LicenseDB) (cfg : ConfigDB) :
    BindResult × LicenseDB × ConfigDB × List Event :=
  match lic.lookup key with
  | none => (.invalidKey, lic, cfg, [])
  | some li =>
    let prem := is_guild_premium now cfg guild_id
    if prem.1 then (.alreadyPremium prem.2, lic, cfg, [])
    else if (match li.expiry_timestamp with
             | .na => false
             | .ts t => decide (t ≤ now)) then
      (.keyExpired, lic, cfg, [])
    else if li.is_used ∧ li.guild_id ≠ some guild_id then
      (.usedElsewhere li.guild_id, lic, cfg, [])
    else
      let li' := { li with is_used := true, guild_id := some guild_id }
      let lic' := lic.map (fun p => if p.1 = key then (key, li') else p)
      let newPremium : Premium :=
        { active := true
          license_key := key
          activated_by := actor
          activated_at := now
          expires_at :=
            match li.expiry_timestamp with
            | .na => .na
            | .ts t => .ts t
          inactivated_at := none
          removal_reason := none }
      let gc := (cfg.lookup guild_id).getD ⟨none, none⟩
      let cfg' := dictInsert guild_id { gc with premium := some newPremium } cfg
      (.success, lic', cfg', [.persistLicenses, .persistConfig])

/-- Result reported by `license_delete_command`. -/
inductive DeleteOutcome where
  | deletedUsed (guild : Option Nat)
  | deletedUnused
  | notFound
  deriving DecidableEq, Repr

/-- `license_delete_command` (`src/app.py:942-980`): if the key exists and
`is_used`, and the bound guild's premium dict is `active` with
`license_key == key`, the guild's premium is flipped off
(`active = False`, `removal_reason = "License deleted by owner."`),
`save_data('config')` runs, then the owner DM is attempted; in every
found case the key is then deleted and `save_data('licenses')` runs. -/
def license_delete (key : String) (lic : LicenseDB) (cfg : ConfigDB) :
    LicenseDB × ConfigDB × DeleteOutcome × List Event :=
  match lic.lookup key with
  | none => (lic, cfg, .notFound, [])
  | some li =>
    if li.is_used then
      let res : ConfigDB × List Event :=
        match li.guild_id with
        | none => (cfg, ([] : List Event))
        | some gid =>
          let gc := (cfg.lookup gid).getD ⟨none, none⟩
          match gc.premium with
          | none => (cfg, [])
          | some pr =>
            if pr.active ∧ pr.license_key = key then
              let cfg' := cfg.map (fun p =>
                if p.1 = gid then
                  (p.1, { p.2 with premium := p.2.premium.map (fun q =>
                    { q with active := false
                             removal_reason :=
                               some "License deleted by owner." }) })
                else p)
              (cfg', [.persistConfig, .notifyOwner gid])
            else (cfg, [])
      (sdictPop key lic, res.1, .deletedUsed li.guild_id,
        res.2 ++ [.persistLicenses])
    else
      (sdictPop key lic, cfg, .deletedUnused, [.persistLicenses])

/-! ## Persistence: `save_data` / `load_data` (`src/app.py:53-131`)

`save_data` writes each registry as one JSON document. JSON object keys
are strings, so `json.dump` renders an int key `k` as its decimal string
(explicitly `str(k)` for `CONFIG_DB`, implicitly for the int-keyed
`ACTIVE_GIVEWAYS`); `load_data` rebuilds the dict with
`{int(k): v for k, v in json.load(f).items()}`. We model the decimal
string of an int key as its base-10 digit list (`Nat.digits 10`, little
endian) and `int(...)` on load as `Nat.ofDigits 10`; string-keyed
`LICENSE_DB` passes through unchanged. -/

/-- A persisted JSON document for an int-keyed registry: the key rendered
as its decimal digit string, paired with the value. -/
def save_int_keyed {α : Type} (db : List (Nat × α)) :
    List (List Nat × α) :=
  db.map (fun p => (Nat.digits 10 p.1, p.2))

/-- Loading an int-keyed registry: `int(k)` applied to every key. -/
def load_int_keyed {α : Type} (doc : List (List Nat × α)) :
    List (Nat × α) :=
  doc.map (fun p => (Nat.ofDigits 10 p.1, p.2))

/-- `save_data('giveaways')`: `ACTIVE_GIVEWAYS` dumped with int keys
stringified by `json.dump`. -/
def save_giveaways (db : GiveawayDB) : List (List Nat × Giveaway) :=
  save_int_keyed db

/-- The giveaways branch of `load_data` (`src/app.py:68-75`). -/
def load_giveaways (doc : List (List Nat × Giveaway)) : GiveawayDB :=
  load_int_keyed doc

/-- `save_data('config')`: `{str(k): v for k, v in CONFIG_DB.items()}`. -/
def save_config (db : ConfigDB) : List (List Nat × GuildConfig) :=
  save_int_keyed db

/-- The config branch of `load_data` (`src/app.py:78-85`). -/
def load_config (doc : List (List Nat × GuildConfig)) : ConfigDB :=
  load_int_keyed doc

/-- `save_data('licenses')`: `LICENSE_DB` dumped as-is (string keys). -/
def save_licenses (db : LicenseDB) : LicenseDB := db

/-- The licenses branch of `load_data` (`src/app.py:98-105`):
`json.load` only, no key conversion. -/
def load_licenses (doc : LicenseDB) : LicenseDB := doc

/-! ## Whole-bot state and the periodic tick -/

/-- The bot's mutable registries. -/
structure BotState where
  giveaways : GiveawayDB
  config : ConfigDB
  licenses : LicenseDB
  deriving DecidableEq, Repr

/-- One background-timer tick of the bot. The only periodic task the
source defines is `LicenseCog.check_licenses` (`@tasks.loop(minutes=10)`,
`src/app.py:821`); `GiveawayCog` defines no `tasks.loop`, so a tick runs
only the license sweep and touches neither `ACTIVE_GIVEWAYS` nor
`LICENSE_DB`. -/
def systemTick (now : Int) (s : BotState) : BotState × List Event :=
  let r := check_licenses now s.config
  ({ s with config := r.1 }, r.2)

/-- The premium test performed by `premium_status_command`
(`src/app.py:869-894`) and by the bind-time already-premium guard of
`license_guild_command`: the boolean component of `is_guild_premium`. -/
def premium_status_is_premium (now : Int) (cfg : ConfigDB)
    (guild_id : Nat) : Bool :=
  (is_guild_premium now cfg guild_id).1

/-! ## Concrete records used by witnesses and counterexamples -/

/-- A concrete giveaway: started at 0 with a 1-minute duration, so
`end_time = 60`. -/
def gwA : Giveaway :=
  { prize := "A", start_time := 0, end_time := 60, channel_id := 10
    host_id := 1, message_id := 100 }

/-- A bot state holding one ACTIVE giveaway whose deadline
(`end_time = 60`) has already passed at time 100. -/
def tickCexState : BotState :=
  { giveaways := [(1, gwA)], config := [], licenses := [] }

/-- A premium record bound to key `"K"`, active, expiring at time 10,
held by guild 7: expired at time 100, not yet at time 5. -/
def prK : Premium :=
  { active := true, license_key := "K", activated_by := 1
    activated_at := 0, expires_at := .ts 10, inactivated_at := none
    removal_reason := none }

/-- Guild 7's config holding `prK`. -/
def gcK : GuildConfig := { giveaway_channel_id := none, premium := some prK }

/-- A one-guild `CONFIG_DB` used by witnesses and counterexamples. -/
def cfgK : ConfigDB := [(7, gcK)]

/-- A finite-term license `"K"`: expires at 10, used, bound to guild 7
(the guild of `cfgK`). -/
def liK7 : License :=
  { created_by := 1, expires_at := "2030-01-01 00:00:00 UTC"
    expiry_timestamp := .ts 10, reason := "test", is_used := true
    guild_id := some 7 }

/-- A finite-term license `"K5"`: expires at 100, used, bound to
guild 5. -/
def liSame : License :=
  { created_by := 1, expires_at := "2030-01-01 00:00:00 UTC"
    expiry_timestamp := .ts 100, reason := "test", is_used := true
    guild_id := some 5 }

/-- Guild 5's premium written when `"K5"` was bound: active, finite
expiry 100. -/
def prSame : Premium :=
  { active := true, license_key := "K5", activated_by := 1
    activated_at := 0, expires_at := .ts 100, inactivated_at := none
    removal_reason := none }

/-- A one-guild config in which guild 5 holds the active binding of
`"K5"`. -/
def cfgSame : ConfigDB :=
  [(5, { giveaway_channel_id := none, premium := some prSame })]

/-- A lifetime license `"K1"` (`expiry_timestamp = "N/A"`), used, bound
to guild 5. -/
def liLife : License :=
  { created_by := 1, expires_at := "LIFETIME", expiry_timestamp := .na
    reason := "test", is_used := true, guild_id := some 5 }

/-- Guild 5's premium written when the lifetime key `"K1"` was bound:
`active = true` and `expires_at = "N/A"` (the copied
`expiry_timestamp`). -/
def prLife : Premium :=
  { active := true, license_key := "K1", activated_by := 1
    activated_at := 0, expires_at := .na, inactivated_at := none
    removal_reason := none }

/-- A one-guild config in which guild 5 holds the active, never-expiring
binding of the lifetime key `"K1"`. -/
def cfgLife : ConfigDB :=
  [(5, { giveaway_channel_id := none, premium := some prLife })]

/-- An unused finite-term license `"K2"`, expiring at 1000. -/
def liUnused : License :=
  { created_by := 1, expires_at := "2030-01-01 00:00:00 UTC"
    expiry_timestamp := .ts 1000, reason := "test", is_used := false
    guild_id := none }

/-- Registry after the commands: start "A"; start "B" (ids 1, 2). -/
def gwTwo : GiveawayDB :=
  (start_giveaway 0 "B" 1 1 10 101 (start_giveaway 0 "A" 1 1 10 100 []).1).1

/-- Registry after additionally running `end_giveaway 1`: giveaway 2
("B") is still ACTIVE. -/
def gwAfterEnd : GiveawayDB := (end_giveaway true [] 0 gwTwo 1).1

/-! ## Lemmas about the dict model -/

theorem dictPop_lookup_self {α : Type} (k : Nat) (d : List (Nat × α)) :
    (dictPop k d).lookup k = none := by
  induction d with
  | nil => rfl
  | cons p t ih =>
    by_cases h : p.1 = k
    · have heq : dictPop k (p :: t) = dictPop k t := by simp [dictPop, h]
      rw [heq]; exact ih
    · have heq : dictPop k (p :: t) = p :: dictPop k t := by
        simp [dictPop, h]
      rw [heq]
      have hbeq : (k == p.1) = false := by
        simp only [beq_eq_false_iff_ne, ne_eq]
        intro hc; exact h hc.symm
      simp only [List.lookup, hbeq]
      exact ih

theorem dictInsert_lookup_self {α : Type} (k : Nat) (v : α)
    (d : List (Nat × α)) : (dictInsert k v d).lookup k = some v := by
  induction d with
  | nil => simp [dictInsert, List.lookup]
  | cons a t ih =>
    by_cases ha : a.1 = k
    · have hany : (a :: t).any (fun p => p.1 = k) = true := by
        simp [List.any_cons, ha]
      simp [dictInsert, hany, List.lookup, ha]
    · have hstep : dictInsert k v (a :: t) = a :: dictInsert k v t := by
        by_cases ht : t.any (fun p => p.1 = k) <;>
          simp [dictInsert, List.any_cons, ha, ht]
      rw [hstep]
      have hbeq : (k == a.1) = false := by
        simp only [beq_eq_false_iff_ne, ne_eq]
        intro hc; exact ha hc.symm
      simp only [List.lookup, hbeq]
      exact ih

theorem str_lookup_map_overwrite {α : Type} (key : String) (v : α)
    (l : List (String × α)) (h : (l.lookup key).isSome) :
    (l.map (fun p => if p.1 = key then (key, v) else p)).lookup key
      = some v := by
  induction l with
  | nil => simp [List.lookup] at h
  | cons a t ih =>
    by_cases ha : a.1 = key
    · have hmap : List.map (fun p => if p.1 = key then (key, v) else p) (a :: t)
          = (key, v) :: List.map (fun p => if p.1 = key then (key, v) else p) t := by
        simp [List.map_cons, ha]
      rw [hmap]
      simp [List.lookup]
    · have hmap : List.map (fun p => if p.1 = key then (key, v) else p) (a :: t)
          = a :: List.map (fun p => if p.1 = key then (key, v) else p) t := by
        simp [List.map_cons, ha]
      have hbeq : (key == a.1) = false := by
        simp only [beq_eq_false_iff_ne, ne_eq]
        intro hc; exact ha hc.symm
      simp only [List.lookup, hbeq] at h
      rw [hmap]
      simp only [List.lookup, hbeq]
      exact ih h

theorem keys_nodup_entry_eq {α : Type} {l : List (Nat × α)}
    (hnd : (l.map Prod.fst).Nodup) {p q : Nat × α}
    (hp : p ∈ l) (hq : q ∈ l) (h : p.1 = q.1) : p = q := by
  induction l with
  | nil => cases hp
  | cons a t ih =>
    have hnd' : a.1 ∉ t.map Prod.fst ∧ (t.map Prod.fst).Nodup := by
      simpa [List.nodup_cons] using hnd
    rcases List.mem_cons.mp hp with hp' | hp' <;>
      rcases List.mem_cons.mp hq with hq' | hq'
    · rw [hp', hq']
    · exfalso
      have hq1 : q.1 = a.1 := by rw [← h, hp']
      have hqmem : q.1 ∈ t.map Prod.fst := List.mem_map.mpr ⟨q, hq', rfl⟩
      rw [hq1] at hqmem
      exact hnd'.1 hqmem
    · exfalso
      have hp1 : p.1 = a.1 := by rw [h, hq']
      have hpmem : p.1 ∈ t.map Prod.fst := List.mem_map.mpr ⟨p, hp', rfl⟩
      rw [hp1] at hpmem
      exact hnd'.1 hpmem
    · exact ih hnd'.2 hp' hq'

/-! ## Lemmas about `end_giveaway` -/

/-- Every successful branch of `end_giveaway` (entity found) leaves the
registry equal to `dictPop giveaway_id d`: the claim/pop happens first,
before fetching, drawing and announcing. -/
theorem end_giveaway_state_of_found {fetch_ok : Bool}
    {reactors : List (Nat × Bool)} {r : Nat} {d : GiveawayDB}
    {giveaway_id : Nat} {g : Giveaway} (hg : d.lookup giveaway_id = some g) :
    (end_giveaway fetch_ok reactors r d giveaway_id).1
      = dictPop giveaway_id d := by
  simp only [end_giveaway, hg]
  split
  · split <;> rfl
  · rfl

/-! ## C1 — manual completion is exactly-once -/

/-- **C1.** After `end_giveaway` successfully completes (claims) a
giveaway id, any further `end_giveaway` call for that same id reports
`notActive` and performs no further side effects: no winner draw, no
announcement, no message edit, no persistence event, and the registry is
unchanged. The pop from `ACTIVE_GIVEWAYS` (plus `save_data`) happens
before steps 2–6, so those steps run at most once per giveaway. -/
theorem end_giveaway_exactly_once (fo fo' : Bool)
    (re re' : List (Nat × Bool)) (r r' : Nat) (d : GiveawayDB) (id : Nat)
    (h : (d.lookup id).isSome) :
    end_giveaway fo' re' r' (end_giveaway fo re r d id).1 id
      = ((end_giveaway fo re r d id).1, .notActive, []) := by
  obtain ⟨g, hg⟩ := Option.isSome_iff_exists.mp h
  rw [end_giveaway_state_of_found hg]
  simp [end_giveaway, dictPop_lookup_self]

/-- Witness for `end_giveaway_exactly_once` on a concrete registry
holding giveaway 1. -/
theorem end_giveaway_exactly_once_witness :
    ((([(1, gwA)] : GiveawayDB).lookup 1).isSome = true) ∧
    end_giveaway true [] 0 (end_giveaway true [(5, false)] 0 [(1, gwA)] 1).1 1
      = ((end_giveaway true [(5, false)] 0 [(1, gwA)] 1).1,
         .notActive, []) :=
  ⟨by decide,
   end_giveaway_exactly_once true true [(5, false)] [] 0 0 [(1, gwA)] 1
     (by decide)⟩

/-! ## C2 — there is no periodic sweep for the giveaway kind -/

/-- **C2 counterexample.** The claim says a periodic sweep claims and
completes every ACTIVE giveaway whose `end_time` has passed. In the
source the only `tasks.loop` is `LicenseCog.check_licenses`;
`GiveawayCog` has no background task. At a tick at time 100, giveaway 1
(deadline 60 ≤ 100) is still ACTIVE in the registry afterwards and the
tick performed no effect at all — it was neither claimed nor completed. -/
theorem giveaway_sweep_missing_cex :
    gwA.end_time ≤ 100 ∧
    (systemTick 100 tickCexState).1.giveaways.lookup 1 = some gwA ∧
    (systemTick 100 tickCexState).2 = [] := by
  decide

/-- **C2 (amended).** The bot has exactly one periodic sweep, the license
sweep (`check_licenses`, every 10 minutes): a background tick runs only
that sweep on `CONFIG_DB` and never touches the giveaway registry or the
license DB. ACTIVE giveaways past their `end_time` are not completed
automatically; they stay in `ACTIVE_GIVEWAYS` until a manual
`end_giveaway`. -/
theorem tick_runs_only_license_sweep (now : Int) (s : BotState) :
    (systemTick now s).1.giveaways = s.giveaways ∧
    (systemTick now s).1.licenses = s.licenses ∧
    (systemTick now s).1.config = (check_licenses now s.config).1 ∧
    (systemTick now s).2 = (check_licenses now s.config).2 :=
  ⟨rfl, rfl, rfl, rfl⟩

/-! ## C3 — winner selection -/

/-- **C3 counterexample.** In the spec's own scenario — participants
{1, 2, 3}, requested winner count 2 — the code draws exactly one winner
(`winner = random.choice(participants)`; `start_giveaway_command` does
not even take a winner count), not `min(2, 3) = 2`. -/
theorem winner_count_cex :
    (pick_winner [1, 2, 3] 0).toList.length = 1 ∧
    (pick_winner [1, 2, 3] 0).toList.length ≠ min 2 3 := by
  decide

/-- **C3 (amended).** Giveaway completion has no requested winner count:
with a non-empty set of eligible (non-bot) participants the code selects
exactly one winner by a uniform random choice — the announced winner is a
participant, and every participant is the selected winner for some random
draw (non-zero selection probability); with no eligible participants a
no-entrants outcome is announced and no winner is drawn. -/
theorem single_random_winner (reactors : List (Nat × Bool)) (r : Nat)
    (d : GiveawayDB) (id : Nat) (g : Giveaway)
    (hg : d.lookup id = some g) :
    ((reactors.filter (fun u => !u.2)).map Prod.fst ≠ [] →
      ∃ w, (end_giveaway true reactors r d id).2.1 = .winnerAnnounced w ∧
        w ∈ (reactors.filter (fun u => !u.2)).map Prod.fst) ∧
    (∀ p ∈ (reactors.filter (fun u => !u.2)).map Prod.fst,
      ∃ r', pick_winner ((reactors.filter (fun u => !u.2)).map Prod.fst) r'
        = some p) ∧
    ((reactors.filter (fun u => !u.2)).map Prod.fst = [] →
      (end_giveaway true reactors r d id).2.1 = .noEntrants) := by
  refine ⟨?_, ?_, ?_⟩
  · intro hne
    have hEmpty :
        ((reactors.filter (fun u => !u.2)).map Prod.fst).isEmpty = false :=
      List.isEmpty_eq_false.mpr hne
    have hlen :
        0 < ((reactors.filter (fun u => !u.2)).map Prod.fst).length :=
      List.length_pos.mpr hne
    have hpick :
        pick_winner ((reactors.filter (fun u => !u.2)).map Prod.fst) r
          = some (((reactors.filter (fun u => !u.2)).map Prod.fst).getD
              (r % ((reactors.filter (fun u => !u.2)).map Prod.fst).length)
              0) := by
      simp [pick_winner, hEmpty]
    refine ⟨((reactors.filter (fun u => !u.2)).map Prod.fst).getD
        (r % ((reactors.filter (fun u => !u.2)).map Prod.fst).length) 0,
      ?_, ?_⟩
    · simp [end_giveaway, hg, hpick]
    · have hlt :
          r % ((reactors.filter (fun u => !u.2)).map Prod.fst).length
            < ((reactors.filter (fun u => !u.2)).map Prod.fst).length :=
        Nat.mod_lt r hlen
      rw [List.getD_eq_getElem _ 0 hlt]
      exact List.getElem_mem hlt
  · intro p hp
    refine ⟨((reactors.filter (fun u => !u.2)).map Prod.fst).indexOf p, ?_⟩
    have hne : (reactors.filter (fun u => !u.2)).map Prod.fst ≠ [] :=
      List.ne_nil_of_mem hp
    have hEmpty :
        ((reactors.filter (fun u => !u.2)).map Prod.fst).isEmpty = false :=
      List.isEmpty_eq_false.mpr hne
    have hidx :
        ((reactors.filter (fun u => !u.2)).map Prod.fst).indexOf p
          < ((reactors.filter (fun u => !u.2)).map Prod.fst).length :=
      List.indexOf_lt_length.mpr hp
    have hmod :
        ((reactors.filter (fun u => !u.2)).map Prod.fst).indexOf p
            % ((reactors.filter (fun u => !u.2)).map Prod.fst).length
          = ((reactors.filter (fun u => !u.2)).map Prod.fst).indexOf p :=
      Nat.mod_eq_of_lt hidx
    simp only [pick_winner, hEmpty, Bool.false_eq_true, if_false]
    rw [hmod, List.getD_eq_getElem _ 0 hidx, List.getElem_indexOf hidx]
  · intro hnil
    have hpick :
        pick_winner ((reactors.filter (fun u => !u.2)).map Prod.fst) r
          = none := by
      simp [pick_winner, hnil]
    simp [end_giveaway, hg, hpick]

/-- Witness for `single_random_winner`: registry with giveaway 1,
reactors 5 and 6 (humans) and 7 (a bot), random draw 1. -/
theorem single_random_winner_witness :
    (([(1, gwA)] : GiveawayDB).lookup 1 = some gwA) ∧
    ((([((5 : Nat), false), (6, false), (7, true)].filter
        (fun u => ¬ u.2)).map Prod.fst ≠ [] →
      ∃ w, (end_giveaway true [(5, false), (6, false), (7, true)] 1
              [(1, gwA)] 1).2.1 = .winnerAnnounced w ∧
        w ∈ ([((5 : Nat), false), (6, false), (7, true)].filter
              (fun u => ¬ u.2)).map Prod.fst) ∧
    (∀ p ∈ ([((5 : Nat), false), (6, false), (7, true)].filter
              (fun u => ¬ u.2)).map Prod.fst,
      ∃ r', pick_winner (([((5 : Nat), false), (6, false), (7, true)].filter
              (fun u => ¬ u.2)).map Prod.fst) r' = some p) ∧
    (([((5 : Nat), false), (6, false), (7, true)].filter
        (fun u => ¬ u.2)).map Prod.fst = [] →
      (end_giveaway true [(5, false), (6, false), (7, true)] 1
          [(1, gwA)] 1).2.1 = .noEntrants)) :=
  ⟨by decide,
   single_random_winner [(5, false), (6, false), (7, true)] 1
     [(1, gwA)] 1 gwA (by decide)⟩

/-! ## C4 — the license sweep deactivates exactly the expired guilds -/

theorem map_eq_self_of_forall {α : Type} {l : List α} {f : α → α}
    (h : ∀ a ∈ l, f a = a) : l.map f = l := by
  induction l with
  | nil => rfl
  | cons a t ih =>
    simp only [List.map_cons, h a (List.mem_cons_self a t)]
    rw [ih (fun x hx => h x (List.mem_cons_of_mem a hx))]

/-- A guild deactivated by the sweep can never satisfy the sweep's
expiry condition again: its `active` flag is now false. -/
theorem premium_expired_now_deactivateExpired (now now' : Int)
    (c : GuildConfig) :
    premium_expired_now now' (deactivateExpired now c) = false := by
  cases hc : c.premium <;>
    simp [premium_expired_now, deactivateExpired, hc]

/-- Under distinct guild ids, a guild id is collected in
`expired_guild_ids` exactly when its own config satisfies the sweep's
expiry condition. -/
theorem mem_expiredGuildIds_iff {now : Int} {cfg : ConfigDB}
    (hnd : (cfg.map Prod.fst).Nodup) {p : Nat × GuildConfig} (hp : p ∈ cfg) :
    p.1 ∈ expiredGuildIds now cfg ↔ premium_expired_now now p.2 = true := by
  constructor
  · intro h
    obtain ⟨q, hq, hq1⟩ := List.mem_map.mp h
    have hqf := List.mem_filter.mp hq
    have hqp : q = p := keys_nodup_entry_eq hnd hqf.1 hp hq1
    rw [← hqp]
    exact hqf.2
  · intro h
    exact List.mem_map.mpr ⟨p, List.mem_filter.mpr ⟨hp, h⟩, rfl⟩

/-- **C4.** A license sweep tick deactivates exactly the guilds whose
premium config is `active` with a finite (integer) `expires_at ≤ now`:
each such guild's premium dict is flipped to `active = false` with
`removal_reason = "Expired automatically."` (and `inactivated_at = now`),
every other guild — future expiry, `"LIFETIME"`, the `"N/A"` sentinel
(which makes `int()` raise), or already inactive — is left untouched;
and a guild deactivated at this tick is never collected by any later
sweep tick again (the flip happens exactly once). -/
theorem license_sweep_exact (now : Int) (cfg : ConfigDB)
    (hnd : (cfg.map Prod.fst).Nodup) :
    (check_licenses now cfg).1
      = cfg.map (fun p =>
          if premium_expired_now now p.2 then
            (p.1, deactivateExpired now p.2)
          else p) ∧
    (∀ c : GuildConfig, ∀ pr : Premium, c.premium = some pr →
      (deactivateExpired now c).premium
        = some { pr with
            active := false
            inactivated_at := some now
            removal_reason := some "Expired automatically." }) ∧
    (∀ now' : Int, ∀ g ∈ expiredGuildIds now cfg,
      g ∉ expiredGuildIds now' (check_licenses now cfg).1) := by
  have hpt : (check_licenses now cfg).1
      = cfg.map (fun p =>
          if premium_expired_now now p.2 then
            (p.1, deactivateExpired now p.2)
          else p) := by
    rcases eq_or_ne (expiredGuildIds now cfg) [] with he | he
    · have hb : (expiredGuildIds now cfg).isEmpty = true :=
        List.isEmpty_iff.mpr he
      have h1 : check_licenses now cfg = (cfg, []) := by
        simp [check_licenses, hb]
      rw [h1]
      symm
      apply map_eq_self_of_forall
      intro p hp
      rw [if_neg]
      intro hc
      have hmem : p.1 ∈ expiredGuildIds now cfg :=
        (mem_expiredGuildIds_iff hnd hp).mpr hc
      rw [he] at hmem
      cases hmem
    · have hb : (expiredGuildIds now cfg).isEmpty = false :=
        List.isEmpty_eq_false.mpr he
      have h1 : check_licenses now cfg
          = (cfg.map (fun p =>
              if p.1 ∈ expiredGuildIds now cfg then
                (p.1, deactivateExpired now p.2)
              else p),
             (expiredGuildIds now cfg).map .notifyOwner
               ++ [.persistConfig]) := by
        simp [check_licenses, hb]
      rw [h1]
      apply List.map_congr_left
      intro p hp
      by_cases hc : premium_expired_now now p.2 = true
      · rw [if_pos ((mem_expiredGuildIds_iff hnd hp).mpr hc), if_pos hc]
      · rw [if_neg (fun hmem => hc ((mem_expiredGuildIds_iff hnd hp).mp hmem)),
            if_neg hc]
  refine ⟨hpt, ?_, ?_⟩
  · intro c pr hpr
    simp [deactivateExpired, hpr]
  · intro now' g hg hg'
    rw [hpt] at hg'
    obtain ⟨q, hqf, hq1⟩ := List.mem_map.mp hg'
    have hqm := List.mem_filter.mp hqf
    obtain ⟨p, hp, hfp⟩ := List.mem_map.mp hqm.1
    obtain ⟨q0, hq0f, hq01⟩ := List.mem_map.mp hg
    have hq0m := List.mem_filter.mp hq0f
    have hkey : (if premium_expired_now now p.2 = true then
        (p.1, deactivateExpired now p.2) else p).1 = p.1 := by
      by_cases h : premium_expired_now now p.2 = true <;> simp [h]
    have hp1 : p.1 = g := by
      rw [← hq1, ← hfp]
      exact hkey.symm ▸ rfl
    have hpq0 : p = q0 :=
      keys_nodup_entry_eq hnd hp hq0m.1 (by rw [hp1, hq01])
    have hcondp : premium_expired_now now p.2 = true := by
      rw [hpq0]; exact hq0m.2
    have hqeq : q = (p.1, deactivateExpired now p.2) := by
      rw [← hfp, if_pos hcondp]
    have hfalse : premium_expired_now now' q.2 = false := by
      rw [hqeq]
      exact premium_expired_now_deactivateExpired now now' p.2
    have := hqm.2
    rw [hfalse] at this
    cases this

/-- Witness for `license_sweep_exact` on the concrete one-guild config
`cfgK` at time 100 (guild 7's premium expired at 10). -/
theorem license_sweep_exact_witness :
    ((cfgK.map Prod.fst).Nodup) ∧
    ((check_licenses 100 cfgK).1
      = cfgK.map (fun p =>
          if premium_expired_now 100 p.2 then
            (p.1, deactivateExpired 100 p.2)
          else p) ∧
    (∀ c : GuildConfig, ∀ pr : Premium, c.premium = some pr →
      (deactivateExpired 100 c).premium
        = some { pr with
            active := false
            inactivated_at := some 100
            removal_reason := some "Expired automatically." }) ∧
    (∀ now' : Int, ∀ g ∈ expiredGuildIds 100 cfgK,
      g ∉ expiredGuildIds now' (check_licenses 100 cfgK).1)) :=
  ⟨by decide, license_sweep_exact 100 cfgK (by decide)⟩

/-! ## C5 — rebinding a used key to its own guild -/

/-- **C5 counterexample.** Key `"K5"` exists, is unexpired at time 50
(expires at 100) and is bound to guild 5 itself — yet rebinding it to
guild 5 is rejected: the already-premium guard fires first (guild 5's
entitlement from this very key is still active), so the bind does not
succeed as an idempotent rebind. -/
theorem idempotent_rebind_rejected_cex :
    ([("K5", liSame)] : LicenseDB).lookup "K5" = some liSame ∧
    liSame.is_used = true ∧
    liSame.guild_id = some 5 ∧
    liSame.expiry_timestamp = .ts 100 ∧
    (license_guild 50 "K5" 5 9 [("K5", liSame)] cfgSame).1
      = .alreadyPremium (some (.ts 100)) ∧
    (license_guild 50 "K5" 5 9 [("K5", liSame)] cfgSame).1 ≠ .success := by
  decide

/-- **C5 (amended).** The used-key guard itself only rejects rebinding to
a *different* guild; a used key bound to the same target guild passes it.
But the earlier already-premium guard rejects any bind — same key
included — while `is_guild_premium` reports the guild premium. So an
idempotent same-guild rebind succeeds exactly when the key exists, is
unexpired, and the guild is not currently reported premium (e.g. a
lifetime binding, whose stored `"N/A"` expiry makes `is_guild_premium`
report non-premium); it then re-marks the key used and bound to the same
guild and rewrites the guild's premium config from the key. -/
theorem rebind_same_guild (now : Int) (key : String) (guild_id actor : Nat)
    (lic : LicenseDB) (cfg : ConfigDB) (li : License)
    (hk : lic.lookup key = some li)
    (_hused : li.is_used = true)
    (hbound : li.guild_id = some guild_id)
    (hprem : (is_guild_premium now cfg guild_id).1 = false)
    (hunexp : match li.expiry_timestamp with
              | .na => True
              | .ts t => now < t) :
    (license_guild now key guild_id actor lic cfg).1 = .success ∧
    (license_guild now key guild_id actor lic cfg).2.1.lookup key
      = some { li with is_used := true, guild_id := some guild_id } ∧
    ((license_guild now key guild_id actor lic cfg).2.2.1.lookup
        guild_id).bind
        (fun c => c.premium.map (fun p => (p.active, p.license_key)))
      = some (true, key) := by
  have h1 : ¬ ((is_guild_premium now cfg guild_id).1 = true) := by
    rw [hprem]; exact Bool.false_ne_true
  have hexp : (match li.expiry_timestamp with
      | .na => false
      | .ts t => decide (t ≤ now)) = false := by
    cases he : li.expiry_timestamp with
    | na => rfl
    | ts t =>
      rw [he] at hunexp
      exact decide_eq_false (not_le.mpr hunexp)
  have h2 : ¬ ((match li.expiry_timestamp with
      | .na => false
      | .ts t => decide (t ≤ now)) = true) := by
    rw [hexp]; exact Bool.false_ne_true
  have h3 : ¬ (li.is_used = true ∧ li.guild_id ≠ some guild_id) := by
    rintro ⟨-, hno⟩
    exact hno hbound
  simp only [license_guild, hk]
  rw [if_neg h1, if_neg h2, if_neg h3]
  refine ⟨rfl, ?_, ?_⟩
  · exact str_lookup_map_overwrite key _ lic (by rw [hk]; rfl)
  · rw [dictInsert_lookup_self]
    rfl

/-- Witness for `rebind_same_guild`: rebinding the lifetime key `"K1"`
to its own guild 5 succeeds. -/
theorem rebind_same_guild_witness :
    (([("K1", liLife)] : LicenseDB).lookup "K1" = some liLife ∧
     liLife.is_used = true ∧
     liLife.guild_id = some 5 ∧
     (is_guild_premium 50 cfgLife 5).1 = false) ∧
    ((license_guild 50 "K1" 5 9 [("K1", liLife)] cfgLife).1 = .success ∧
     (license_guild 50 "K1" 5 9 [("K1", liLife)] cfgLife).2.1.lookup "K1"
       = some { liLife with is_used := true, guild_id := some 5 } ∧
     ((license_guild 50 "K1" 5 9 [("K1", liLife)] cfgLife).2.2.1.lookup
         5).bind
         (fun c => c.premium.map (fun p => (p.active, p.license_key)))
       = some (true, "K1")) :=
  ⟨⟨by decide, by decide, by decide, by decide⟩,
   rebind_same_guild 50 "K1" 5 9 [("K1", liLife)] cfgLife liLife
     (by decide) (by decide) (by decide) (by decide) trivial⟩

/-! ## C6 — binding over an existing active entitlement -/

/-- **C6 (code bug).** Guild 5 holds an active, never-expiring
entitlement: the lifetime key `"K1"` is bound to it and its premium
config has `active = true` with the `"N/A"` (never expires) expiry that
`license_guild_command` stores for lifetime keys. The claim — and §4.5 /
§8 of the spec — require that binding a different unused key `"K2"` then
fails with a conflict and changes nothing. Instead `is_guild_premium`
misses the entitlement (it tests for the `"LIFETIME"` sentinel, but the
bind path stored `"N/A"`, on which `int()` raises), so the bind
*succeeds*: `"K2"` is marked used and guild 5's entitlement is replaced.
The code contradicts its own activation message, which reported the
`"K1"` binding as `LIFETIME` premium. -/
theorem active_lifetime_binding_overwritten_bug :
    ((cfgLife.lookup 5).bind (fun c => c.premium.map
        (fun p => (p.active, p.expires_at, p.license_key)))
      = some (true, PremiumExpiry.na, "K1")) ∧
    is_guild_premium 50 cfgLife 5 = (false, none) ∧
    (license_guild 50 "K2" 5 9 [("K1", liLife), ("K2", liUnused)]
        cfgLife).1 = .success ∧
    (((license_guild 50 "K2" 5 9 [("K1", liLife), ("K2", liUnused)]
        cfgLife).2.2.1.lookup 5).bind
        (fun c => c.premium.map (fun p => p.license_key)) = some "K2") ∧
    (((license_guild 50 "K2" 5 9 [("K1", liLife), ("K2", liUnused)]
        cfgLife).2.1.lookup "K2").map License.is_used = some true) := by
  decide

/-! ## C7 — giveaway id generation reuses live ids -/

/-- **C7 (code bug).** Ids are generated as `len(ACTIVE_GIVEWAYS) + 1`,
which is not fresh once an entity has been removed. After
start "A" (id 1), start "B" (id 2), end 1, the registry holds only the
still-ACTIVE giveaway 2 ("B"); the next start computes
`len + 1 = 2` again and silently overwrites the live entry 2 — its prize
changes from "B" to "C" — contradicting the id-uniqueness invariant. -/
theorem giveaway_id_reuse_bug :
    (gwAfterEnd.lookup 2).map Giveaway.prize = some "B" ∧
    (start_giveaway 50 "C" 1 1 10 102 gwAfterEnd).2 = 2 ∧
    ((start_giveaway 50 "C" 1 1 10 102 gwAfterEnd).1.lookup 2).map
      Giveaway.prize = some "C" ∧
    ((start_giveaway 50 "C" 1 1 10 102 gwAfterEnd).1.lookup 2).map
      Giveaway.prize ≠ some "B" := by
  decide

/-! ## C8 — persistence round-trips -/

/-- **C8.** Saving any in-memory registry to its JSON document and
loading it into a fresh store yields an identical mapping: the int keys
of `ACTIVE_GIVEWAYS` and `CONFIG_DB` survive the string-key conversion
(`str(k)` on dump, `int(k)` on load), and all deadlines and payload
fields pass through unchanged; the string-keyed `LICENSE_DB` passes
through as-is. -/
theorem persistence_round_trip :
    (∀ db : GiveawayDB, load_giveaways (save_giveaways db) = db) ∧
    (∀ db : ConfigDB, load_config (save_config db) = db) ∧
    (∀ db : LicenseDB, load_licenses (save_licenses db) = db) := by
  have key : ∀ {α : Type} (db : List (Nat × α)),
      load_int_keyed (save_int_keyed db) = db := by
    intro α db
    unfold load_int_keyed save_int_keyed
    rw [List.map_map]
    apply map_eq_self_of_forall
    intro p hp
    simp [Function.comp, Nat.ofDigits_digits]
  exact ⟨fun db => key db, fun db => key db, fun db => rfl⟩

/-! ## C9 — persist/notify ordering of the two deactivation paths -/

/-- **C9 counterexample.** In the natural-expiry sweep the owner
notification is attempted *before* the config is persisted: at time 100
on `cfgK` (guild 7 expired at 10) the sweep's event trace is
`[notifyOwner 7, persistConfig]` — the first effect is the notification,
so the sweep path does not follow persist-then-notify as claimed
(`save_data('config')` runs once, after the notification loop). -/
theorem sweep_notify_before_persist_cex :
    (check_licenses 100 cfgK).2 = [.notifyOwner 7, .persistConfig] ∧
    (check_licenses 100 cfgK).2.head? = some (.notifyOwner 7) := by
  decide

/-- **C9 (amended).** The two deactivation paths order their effects
differently: operator deletion of a guild's active binding persists the
deactivated config *before* attempting the owner notification
(`[persistConfig, notifyOwner, persistLicenses]`), while the
natural-expiry sweep attempts all owner notifications first and persists
the config once afterwards (`notifications ++ [persistConfig]`). Each
path still produces a single deactivation transition. -/
theorem deactivation_event_order (key : String) (gid : Nat)
    (lic : LicenseDB) (cfg : ConfigDB) (li : License) (gc : GuildConfig)
    (pr : Premium)
    (hk : lic.lookup key = some li) (hused : li.is_used = true)
    (hguild : li.guild_id = some gid)
    (hc : cfg.lookup gid = some gc) (hp : gc.premium = some pr)
    (hact : pr.active = true) (hkey : pr.license_key = key)
    (now : Int) (cfg2 : ConfigDB)
    (hexp : expiredGuildIds now cfg2 ≠ []) :
    (license_delete key lic cfg).2.2.2
      = [.persistConfig, .notifyOwner gid, .persistLicenses] ∧
    (check_licenses now cfg2).2
      = (expiredGuildIds now cfg2).map .notifyOwner
          ++ [.persistConfig] := by
  constructor
  · simp only [license_delete, hk, hused, hguild, hc, hp, Option.getD_some,
      if_true]
    rw [if_pos ⟨hact, hkey⟩]
    rfl
  · have hb : (expiredGuildIds now cfg2).isEmpty = false :=
      List.isEmpty_eq_false.mpr hexp
    simp [check_licenses, hb]

/-- Witness for `deactivation_event_order`: deleting `"K"` (guild 7's
active binding in `cfgK`) and sweeping `cfgK` at time 100. -/
theorem deactivation_event_order_witness :
    (([("K", liK7)] : LicenseDB).lookup "K" = some liK7 ∧
     liK7.is_used = true ∧
     liK7.guild_id = some 7 ∧
     cfgK.lookup 7 = some gcK ∧
     gcK.premium = some prK ∧
     prK.active = true ∧
     prK.license_key = "K" ∧
     expiredGuildIds 100 cfgK ≠ []) ∧
    ((license_delete "K" [("K", liK7)] cfgK).2.2.2
      = [.persistConfig, .notifyOwner 7, .persistLicenses] ∧
     (check_licenses 100 cfgK).2
      = (expiredGuildIds 100 cfgK).map .notifyOwner
          ++ [.persistConfig]) :=
  ⟨⟨by decide, by decide, by decide, by decide, by decide, by decide,
    by decide, by decide⟩,
   deactivation_event_order "K" 7 [("K", liK7)] cfgK liK7 gcK prK
     (by decide) (by decide) (by decide) (by decide) (by decide)
     (by decide) (by decide) 100 cfgK (by decide)⟩

/-! ## C10 — a stale active flag never grants premium -/

/-- **C10.** For any guild whose stored premium record still has
`active = true` but a finite `expires_at ≤ now`, `is_guild_premium`
reports the guild as not premium, returning `(False, expires_ts)`, and
hence the premium-status query and the bind-time already-premium check
see non-premium. The function is pure: the stored record is not
modified (cleanup is left to the sweep task). -/
theorem stale_premium_masked (now : Int) (cfg : ConfigDB) (gid : Nat)
    (c : GuildConfig) (p : Premium) (t : Int)
    (hc : cfg.lookup gid = some c) (hp : c.premium = some p)
    (hact : p.active = true) (hexp : p.expires_at = .ts t)
    (hle : t ≤ now) :
    is_guild_premium now cfg gid = (false, some (.ts t)) ∧
    premium_status_is_premium now cfg gid = false := by
  have hngt : ¬ (t > now) := not_lt.mpr hle
  have h1 : is_guild_premium now cfg gid = (false, some (.ts t)) := by
    simp [is_guild_premium, hc, hp, hact, hexp, hngt]
  exact ⟨h1, by simp [premium_status_is_premium, h1]⟩

/-- Witness for `stale_premium_masked`: guild 7 of `cfgK` still has
`active = true` but expiry 10 ≤ 100. -/
theorem stale_premium_masked_witness :
    (cfgK.lookup 7 = some gcK ∧
     gcK.premium = some prK ∧
     prK.active = true ∧
     prK.expires_at = .ts 10 ∧
     (10 : Int) ≤ 100) ∧
    (is_guild_premium 100 cfgK 7 = (false, some (.ts 10)) ∧
     premium_status_is_premium 100 cfgK 7 = false) :=
  ⟨⟨by decide, by decide, by decide, by decide, by decide⟩,
   stale_premium_masked 100 cfgK 7 gcK prK 10 (by decide) (by decide)
     (by decide) (by decide) (by decide)⟩

end Spectra
